import Mathlib

/-!
Verification of the workbench control plane (job queue, agent driver,
outcome classifier, attempt runner and clarification API) against its
natural-language specification.  Python sources are shallowly embedded:
database tables become lists of records, timestamps become integers
(seconds), SQL `UPDATE ... WHERE` becomes `List.map` with a guard, raised
`HTTPException`s / `AttributeError`s become `Except` errors.  JSON maps are
flattened into the fields the claims mention.
-/

namespace Workbench

/-! ## Job queue data model (src/backend/src/workbench/models/job.py) -/

/-- Type of job to be processed (`JobType` enum). -/
inductive JobType
  | sync_signals
  | run_attempt
  | retry_attempt
  | cleanup
  deriving DecidableEq, Repr

/-- Status of a job in the queue (`JobStatus` enum). -/
inductive JobStatus
  | pending
  | claimed
  | running
  | completed
  | failed
  | dead
  deriving DecidableEq, Repr

/-- A row of the `jobs` table.  `payload` and `result` (opaque JSON) are
omitted; timestamps are integers; `retry_count` / `max_retries` are the
non-negative counters the service manipulates. -/
structure Job where
  id : Nat
  type : JobType
  status : JobStatus
  priority : Int
  max_retries : Nat
  retry_count : Nat
  scheduled_for : Int
  worker_id : Option String
  claimed_at : Option Int
  heartbeat_at : Option Int
  completed_at : Option Int
  error : Option String
  attempt_id : Option Nat
  updated_at : Int
  deriving DecidableEq, Repr

/-! ## JobService.claim_job (src/backend/src/workbench/services/job_service.py:31-101)

The claim query is
`WHERE status = 'pending' AND scheduled_for <= :now AND retry_count < max_retries
 [AND type = ANY(:job_types)] ORDER BY priority DESC, scheduled_for ASC LIMIT 1`
followed by an `UPDATE` of the selected row.  The Python wrapper applies the
type filter only when `job_types` is truthy (a non-empty list). -/

/-- Eligibility predicate of the claim query's `WHERE` clause. -/
def jobEligible (now : Int) (job_types : Option (List JobType)) (j : Job) : Bool :=
  j.status == JobStatus.pending &&
    decide (j.scheduled_for ≤ now) &&
    decide (j.retry_count < j.max_retries) &&
    (match job_types with
     | none => true
     | some ts => if ts.isEmpty then true else ts.contains j.type)

/-- Strict ordering of the claim query: `priority DESC, scheduled_for ASC`.
`jobPrecedes a b` holds when `a` sorts strictly before `b`. -/
def jobPrecedes (a b : Job) : Bool :=
  decide (b.priority < a.priority) ||
    (decide (a.priority = b.priority) && decide (a.scheduled_for < b.scheduled_for))

/-- Pick the job that sorts first under `jobPrecedes`; ties keep the earlier
row (the database may return any tied row, the model fixes one). -/
def pickBest : List Job → Option Job
  | [] => none
  | j :: rest =>
    match pickBest rest with
    | none => some j
    | some b => if jobPrecedes b j then some b else some j

/-- The `UPDATE` clause of the claim query. -/
def claimUpdate (wid : String) (now : Int) (j : Job) : Job :=
  { j with
    status := JobStatus.claimed
    worker_id := some wid
    claimed_at := some now
    heartbeat_at := some now
    updated_at := now }

/-- `JobService.claim_job`: select the best eligible row, update it to
CLAIMED, return the updated row together with the new table state. -/
def claim_job (db : List Job) (wid : String) (now : Int)
    (job_types : Option (List JobType)) : Option Job × List Job :=
  match pickBest (db.filter (jobEligible now job_types)) with
  | none => (none, db)
  | some j =>
    let j2 := claimUpdate wid now j
    (some j2, db.map fun r => if r.id == j.id then j2 else r)

/-! ### Lemmas about the selection -/

theorem pickBest_eq_none_iff {l : List Job} : pickBest l = none ↔ l = [] := by
  cases l with
  | nil => simp [pickBest]
  | cons j rest =>
    simp only [pickBest]
    cases h : pickBest rest with
    | none => simp
    | some b =>
      constructor
      · intro hc
        by_cases hp : jobPrecedes b j <;> simp [hp] at hc
      · intro hc
        exact absurd hc (List.cons_ne_nil j rest)

theorem pickBest_mem {l : List Job} :
    ∀ {j : Job}, pickBest l = some j → j ∈ l := by
  induction l with
  | nil => intro j h; simp [pickBest] at h
  | cons a rest ih =>
    intro j h
    simp only [pickBest] at h
    cases hr : pickBest rest with
    | none =>
      rw [hr] at h
      simp only [Option.some.injEq] at h
      subst h
      exact List.mem_cons_self a rest
    | some b =>
      rw [hr] at h
      by_cases hpb : jobPrecedes b a
      · simp only [hpb, if_true, Option.some.injEq] at h
        subst h
        exact List.mem_cons_of_mem a (ih hr)
      · simp [hpb] at h
        subst h
        exact List.mem_cons_self a rest

theorem jobPrecedes_irrefl (x : Job) : jobPrecedes x x = false := by
  simp [jobPrecedes]

theorem jobPrecedes_asymm {x y : Job} (h : jobPrecedes x y = true) :
    jobPrecedes y x = false := by
  simp only [jobPrecedes, Bool.or_eq_true, Bool.and_eq_true, decide_eq_true_eq] at h
  simp only [jobPrecedes, Bool.or_eq_false_iff, Bool.and_eq_false_iff,
    decide_eq_false_iff_not, not_lt]
  omega

/-- The negation of `jobPrecedes` is transitive (it is the total preorder
"sorts no earlier than"). -/
theorem jobPrecedes_false_trans {x b j : Job}
    (h1 : jobPrecedes x b = false) (h2 : jobPrecedes b j = false) :
    jobPrecedes x j = false := by
  simp only [jobPrecedes, Bool.or_eq_false_iff, Bool.and_eq_false_iff,
    decide_eq_false_iff_not, not_lt] at h1 h2 ⊢
  omega

theorem pickBest_min {l : List Job} :
    ∀ {j : Job}, pickBest l = some j → ∀ b ∈ l, jobPrecedes b j = false := by
  induction l with
  | nil => intro j h; simp [pickBest] at h
  | cons a rest ih =>
    intro j h b hb
    simp only [pickBest] at h
    cases hr : pickBest rest with
    | none =>
      rw [hr] at h
      simp only [Option.some.injEq] at h
      subst h
      have hnil : rest = [] := pickBest_eq_none_iff.mp hr
      subst hnil
      simp only [List.mem_singleton] at hb
      subst hb
      exact jobPrecedes_irrefl _
    | some best =>
      rw [hr] at h
      by_cases hp : jobPrecedes best a
      · simp only [hp, if_true, Option.some.injEq] at h
        subst h
        rcases List.mem_cons.mp hb with hba | hbr
        · subst hba
          exact jobPrecedes_asymm hp
        · exact ih hr b hbr
      · simp [hp] at h
        subst h
        rcases List.mem_cons.mp hb with hba | hbr
        · subst hba
          exact jobPrecedes_irrefl _
        · exact jobPrecedes_false_trans (ih hr b hbr) (eq_false_of_ne_true hp)

/-- The claim query's eligibility test, spelled in the specification's
language.  An empty `job_types` list is falsy in Python, so no filter is
applied in that case. -/
theorem jobEligible_iff (now : Int) (job_types : Option (List JobType)) (j : Job) :
    jobEligible now job_types j = true ↔
      (j.status = JobStatus.pending ∧ j.scheduled_for ≤ now ∧
        j.retry_count < j.max_retries ∧
        ∀ ts, job_types = some ts → ts ≠ [] → j.type ∈ ts) := by
  cases job_types with
  | none => simp [jobEligible, and_assoc]
  | some ts =>
    by_cases hts : ts.isEmpty
    · have : ts = [] := List.isEmpty_iff.mp hts
      subst this
      simp [jobEligible, and_assoc]
    · have hne : ts ≠ [] := fun hc => hts (by simp [hc])
      simp only [jobEligible, hts, if_false, Bool.and_eq_true, beq_iff_eq,
        decide_eq_true_eq, List.elem_iff, and_assoc]
      constructor
      · rintro ⟨h1, h2, h3, h4⟩
        exact ⟨h1, h2, h3, fun ts2 hts2 _ => by
          cases hts2; simpa using h4⟩
      · rintro ⟨h1, h2, h3, h4⟩
        exact ⟨h1, h2, h3, by simpa using h4 ts rfl hne⟩

/-- C1: a call to `claim_job` with queue state `db`, caller worker id `wid`,
current time `now` and optional type filter `job_types` behaves as the spec
says: the eligibility predicate is
`status = PENDING ∧ scheduled_for ≤ now ∧ retry_count < max_retries ∧
(type ∈ filter when a non-empty filter is supplied)`; when no job is
eligible the call returns `none` and changes no row; when some job is
eligible the call returns an eligible job that no other eligible job
strictly precedes under `priority DESC, scheduled_for ASC`, updated to
CLAIMED with `worker_id = wid` and `claimed_at = heartbeat_at = now`, and
only that job's row is rewritten in the table. -/
theorem claim_job_correct (db : List Job) (wid : String) (now : Int)
    (job_types : Option (List JobType)) :
    (∀ j : Job, jobEligible now job_types j = true ↔
      (j.status = JobStatus.pending ∧ j.scheduled_for ≤ now ∧
        j.retry_count < j.max_retries ∧
        ∀ ts, job_types = some ts → ts ≠ [] → j.type ∈ ts))
  ∧ ((∀ j ∈ db, jobEligible now job_types j = false) →
      claim_job db wid now job_types = (none, db))
  ∧ (∀ j0 ∈ db, jobEligible now job_types j0 = true →
      ∃ j, j ∈ db ∧ jobEligible now job_types j = true ∧
        (∀ j2 ∈ db, jobEligible now job_types j2 = true → jobPrecedes j2 j = false) ∧
        claim_job db wid now job_types =
          (some (claimUpdate wid now j),
            db.map fun r => if r.id == j.id then claimUpdate wid now j else r) ∧
        (claimUpdate wid now j).status = JobStatus.claimed ∧
        (claimUpdate wid now j).worker_id = some wid ∧
        (claimUpdate wid now j).claimed_at = some now ∧
        (claimUpdate wid now j).heartbeat_at = some now ∧
        (∀ r ∈ db, r.id ≠ j.id →
          r ∈ (db.map fun r2 => if r2.id == j.id then claimUpdate wid now j else r2))) := by
  refine ⟨jobEligible_iff now job_types, ?_, ?_⟩
  · intro hall
    have hfil : db.filter (jobEligible now job_types) = [] := by
      rw [List.filter_eq_nil_iff]
      intro a ha
      simp [hall a ha]
    simp [claim_job, hfil, pickBest]
  · intro j0 hj0 helig0
    have hmemfil : j0 ∈ db.filter (jobEligible now job_types) :=
      List.mem_filter.mpr ⟨hj0, helig0⟩
    cases hpb : pickBest (db.filter (jobEligible now job_types)) with
    | none =>
      rw [pickBest_eq_none_iff] at hpb
      rw [hpb] at hmemfil
      exact absurd hmemfil (List.not_mem_nil j0)
    | some j =>
      have hjfil := pickBest_mem hpb
      have hjdb := (List.mem_filter.mp hjfil).1
      have hjelig := (List.mem_filter.mp hjfil).2
      refine ⟨j, hjdb, hjelig, ?_, ?_, rfl, rfl, rfl, rfl, ?_⟩
      · intro j2 hj2 helig2
        exact pickBest_min hpb j2 (List.mem_filter.mpr ⟨hj2, helig2⟩)
      · simp [claim_job, hpb]
      · intro r hr hne
        have hkeep : (if r.id == j.id then claimUpdate wid now j else r) = r := by
          simp [hne]
        exact hkeep ▸ List.mem_map_of_mem _ hr

/-- A concrete pending job used to instantiate `claim_job_correct`. -/
def wJob : Job :=
  { id := 1, type := JobType.run_attempt, status := JobStatus.pending,
    priority := 5, max_retries := 3, retry_count := 0, scheduled_for := 50,
    worker_id := none, claimed_at := none, heartbeat_at := none,
    completed_at := none, error := none, attempt_id := none, updated_at := 0 }

/-- Witness for C1: on a one-job queue the call claims that job. -/
theorem claim_job_correct_witness :
    (claim_job [wJob] "host-1" 100 none).1 = some (claimUpdate "host-1" 100 wJob) := by
  obtain ⟨j, hj, _helig, _hmin, heq, _hfields⟩ :=
    (claim_job_correct [wJob] "host-1" 100 none).2.2 wJob
      (List.mem_singleton.mpr rfl) (by decide)
  simp only [List.mem_singleton] at hj
  subst hj
  rw [heq]

/-! ## JobService.fail_job (job_service.py:139-207)

`fail_job` first reads `retry_count` / `max_retries` of the row with the
given id, computes `retry_count + 1`, and then issues an `UPDATE` restricted
to `status IN (claimed, running)`: back to PENDING with exponential backoff
`retry_delay_seconds * 2 ** old_retry_count` when retries remain, else DEAD.
It returns `rowcount > 0`. -/

/-- Row predicate of the `UPDATE ... WHERE status IN (claimed, running)`. -/
def claimedOrRunning (j : Job) : Bool :=
  j.status == JobStatus.claimed || j.status == JobStatus.running

/-- The PENDING-for-retry branch of `fail_job`'s `UPDATE`. -/
def failRetryUpdate (error : String) (new_rc : Nat) (next_scheduled now : Int)
    (j : Job) : Job :=
  { j with
    status := JobStatus.pending
    error := some error
    retry_count := new_rc
    scheduled_for := next_scheduled
    worker_id := none
    claimed_at := none
    heartbeat_at := none
    updated_at := now }

/-- The DEAD branch of `fail_job`'s `UPDATE`. -/
def failDeadUpdate (error : String) (new_rc : Nat) (now : Int) (j : Job) : Job :=
  { j with
    status := JobStatus.dead
    error := some error
    retry_count := new_rc
    completed_at := some now
    updated_at := now }

/-- `JobService.fail_job`.  Returns (`rowcount > 0`, new table state). -/
def fail_job (db : List Job) (jobId : Nat) (error : String)
    (retry_delay_seconds now : Int) : Bool × List Job :=
  match db.find? (fun j => j.id == jobId) with
  | none => (false, db)
  | some row =>
    let new_rc := row.retry_count + 1
    let upd : Job → Job :=
      if new_rc < row.max_retries then
        failRetryUpdate error new_rc
          (now + retry_delay_seconds * 2 ^ row.retry_count) now
      else
        failDeadUpdate error new_rc now
    let touched := fun j => j.id == jobId && claimedOrRunning j
    (db.any touched, db.map fun j => if touched j then upd j else j)

/-- Compressed three-failure scenario of the specification: `max_retries = 3`,
`retry_delay = 10 s`, all failures at `t = 1000`; between failures the worker
re-claims the job (modelled by setting the status back to CLAIMED). -/
def backoffJob : Job :=
  { id := 1, type := JobType.run_attempt, status := JobStatus.claimed,
    priority := 0, max_retries := 3, retry_count := 0, scheduled_for := 0,
    worker_id := some "w-1", claimed_at := some 0, heartbeat_at := some 0,
    completed_at := none, error := none, attempt_id := none, updated_at := 0 }

def backoffStep1 : List Job := (fail_job [backoffJob] 1 "boom" 10 1000).2

def backoffStep2 : List Job :=
  (fail_job (backoffStep1.map fun j => { j with status := JobStatus.claimed })
    1 "boom" 10 1000).2

def backoffStep3 : List Job :=
  (fail_job (backoffStep2.map fun j => { j with status := JobStatus.claimed })
    1 "boom" 10 1000).2

/-- C2: `fail_job` on a CLAIMED or RUNNING job increments `retry_count`; with
retries remaining the job returns to PENDING with worker fields cleared,
`scheduled_for = now + retry_delay · 2^(old retry_count)` and the error
recorded, otherwise it becomes DEAD with `completed_at = now`.  The final
conjunct replays the spec's backoff scenario (`max_retries = 3`,
`retry_delay = 10 s`, failures at `t = 1000`): `scheduled_for` is `t + 10`
after the first failure and `t + 20` after the second, and the third failure
leaves the job DEAD with `retry_count = 3`. -/
theorem fail_job_correct (db : List Job) (jobId : Nat) (error : String)
    (delay now : Int) (row : Job)
    (hfind : db.find? (fun j => j.id == jobId) = some row)
    (hst : row.status = JobStatus.claimed ∨ row.status = JobStatus.running) :
    (fail_job db jobId error delay now).1 = true
  ∧ ((fail_job db jobId error delay now).2 =
      db.map fun j =>
        if j.id == jobId && claimedOrRunning j then
          (if row.retry_count + 1 < row.max_retries then
            failRetryUpdate error (row.retry_count + 1)
              (now + delay * 2 ^ row.retry_count) now j
          else failDeadUpdate error (row.retry_count + 1) now j)
        else j)
  ∧ (row.retry_count + 1 < row.max_retries →
      (let r2 := failRetryUpdate error (row.retry_count + 1)
        (now + delay * 2 ^ row.retry_count) now row
      r2.status = JobStatus.pending ∧ r2.retry_count = row.retry_count + 1 ∧
        r2.worker_id = none ∧ r2.claimed_at = none ∧ r2.heartbeat_at = none ∧
        r2.scheduled_for = now + delay * 2 ^ row.retry_count ∧
        r2.error = some error ∧ r2 ∈ (fail_job db jobId error delay now).2))
  ∧ (¬ row.retry_count + 1 < row.max_retries →
      (let r2 := failDeadUpdate error (row.retry_count + 1) now row
      r2.status = JobStatus.dead ∧ r2.retry_count = row.retry_count + 1 ∧
        r2.completed_at = some now ∧ r2.error = some error ∧
        r2 ∈ (fail_job db jobId error delay now).2))
  ∧ (backoffStep1.map Job.scheduled_for = [1010] ∧
      backoffStep1.map Job.status = [JobStatus.pending] ∧
      backoffStep2.map Job.scheduled_for = [1020] ∧
      backoffStep3.map Job.status = [JobStatus.dead] ∧
      backoffStep3.map Job.retry_count = [3]) := by
  have hmem : row ∈ db := List.mem_of_find?_eq_some hfind
  have hid : (row.id == jobId) = true := by
    have h := List.find?_some hfind
    simpa using h
  have hcr : claimedOrRunning row = true := by
    rcases hst with h | h <;> simp [claimedOrRunning, h]
  have htouch : (row.id == jobId && claimedOrRunning row) = true := by
    simp [hid, hcr]
  refine ⟨?_, ?_, ?_, ?_, ?_⟩
  · simp only [fail_job, hfind]
    exact List.any_eq_true.mpr ⟨row, hmem, htouch⟩
  · simp only [fail_job, hfind]
    by_cases hlt : row.retry_count + 1 < row.max_retries <;> simp [hlt]
  · intro hlt
    refine ⟨rfl, rfl, rfl, rfl, rfl, rfl, rfl, ?_⟩
    simp only [fail_job, hfind, hlt, if_true]
    have := List.mem_map_of_mem
      (fun j => if j.id == jobId && claimedOrRunning j then
        failRetryUpdate error (row.retry_count + 1)
          (now + delay * 2 ^ row.retry_count) now j else j) hmem
    simpa [htouch] using this
  · intro hlt
    refine ⟨rfl, rfl, rfl, rfl, ?_⟩
    simp only [fail_job, hfind, hlt, if_false]
    have := List.mem_map_of_mem
      (fun j => if j.id == jobId && claimedOrRunning j then
        failDeadUpdate error (row.retry_count + 1) now j else j) hmem
    simpa [htouch, hlt] using this
  · refine ⟨?_, ?_, ?_, ?_, ?_⟩ <;> decide

/-- Witness for C2: the first failure of the backoff scenario reschedules the
job to `t + 10` in PENDING state. -/
theorem fail_job_correct_witness :
    (fail_job [backoffJob] 1 "boom" 10 1000).1 = true := by
  exact (fail_job_correct [backoffJob] 1 "boom" 10 1000 backoffJob
    (by decide) (Or.inl rfl)).1

/-! ## JobService.recover_stale_jobs (job_service.py:225-254)

The `UPDATE` matches `status IN (claimed, running) AND heartbeat_at <
threshold AND retry_count < max_retries` (an SQL `NULL` heartbeat never
satisfies the `<`), where `threshold = now - stale_threshold_seconds`. -/

/-- Row predicate of the stale-recovery `UPDATE`. -/
def staleMatch (threshold : Int) (j : Job) : Bool :=
  (j.status == JobStatus.claimed || j.status == JobStatus.running) &&
    (match j.heartbeat_at with
     | some h => decide (h < threshold)
     | none => false) &&
    decide (j.retry_count < j.max_retries)

/-- The `SET` clause of the stale-recovery `UPDATE`. -/
def recoverUpdate (now : Int) (j : Job) : Job :=
  { j with
    status := JobStatus.pending
    error := some "Recovered from stale worker"
    retry_count := j.retry_count + 1
    worker_id := none
    claimed_at := none
    heartbeat_at := none
    updated_at := now }

/-- `JobService.recover_stale_jobs`.  Returns (`rowcount`, new table state). -/
def recover_stale_jobs (db : List Job) (stale_threshold_seconds now : Int) :
    Nat × List Job :=
  let threshold := now - stale_threshold_seconds
  ((db.filter (staleMatch threshold)).length,
    db.map fun j => if staleMatch threshold j then recoverUpdate now j else j)

/-- A CLAIMED job with a stale heartbeat that has already exhausted its
retries (`retry_count = max_retries = 3`). -/
def exhaustedStaleJob : Job :=
  { id := 7, type := JobType.run_attempt, status := JobStatus.claimed,
    priority := 0, max_retries := 3, retry_count := 3, scheduled_for := 0,
    worker_id := some "w-1", claimed_at := some 0, heartbeat_at := some 0,
    completed_at := none, error := none, attempt_id := none, updated_at := 0 }

/-- Counterexample to C3 as stated: at `now = 1000` with threshold
`T = 300 s`, `exhaustedStaleJob` is CLAIMED with `heartbeat_at = 0 < now - T`,
yet `recover_stale_jobs` recovers nothing and leaves the row unchanged,
because the `UPDATE` additionally requires `retry_count < max_retries`. -/
theorem recover_stale_jobs_counterexample :
    exhaustedStaleJob.status = JobStatus.claimed ∧
    exhaustedStaleJob.heartbeat_at = some 0 ∧ (0 : Int) < 1000 - 300 ∧
    recover_stale_jobs [exhaustedStaleJob] 300 1000 = (0, [exhaustedStaleJob]) := by
  refine ⟨rfl, rfl, by norm_num, ?_⟩
  decide

/-- C3 (amended): the stale-recovery operation with threshold `T` at time
`now` transitions exactly the CLAIMED/RUNNING jobs with
`heartbeat_at < now − T` *and `retry_count < max_retries`* back to PENDING
with `retry_count` incremented, `scheduled_for` unchanged,
`worker_id`/`claimed_at`/`heartbeat_at` cleared and the error
"Recovered from stale worker"; DEAD jobs and jobs with a fresh heartbeat are
untouched, and the operation returns the number of jobs recovered. -/
theorem recover_stale_jobs_correct (db : List Job) (T now : Int) :
    ((recover_stale_jobs db T now).2 =
      db.map fun j => if staleMatch (now - T) j then recoverUpdate now j else j)
  ∧ ((recover_stale_jobs db T now).1 =
      (db.filter (staleMatch (now - T))).length)
  ∧ (∀ j : Job, staleMatch (now - T) j = true ↔
      ((j.status = JobStatus.claimed ∨ j.status = JobStatus.running) ∧
        (∃ h, j.heartbeat_at = some h ∧ h < now - T) ∧
        j.retry_count < j.max_retries))
  ∧ (∀ j : Job, staleMatch (now - T) j = true →
      ((recoverUpdate now j).status = JobStatus.pending ∧
        (recoverUpdate now j).retry_count = j.retry_count + 1 ∧
        (recoverUpdate now j).scheduled_for = j.scheduled_for ∧
        (recoverUpdate now j).worker_id = none ∧
        (recoverUpdate now j).claimed_at = none ∧
        (recoverUpdate now j).heartbeat_at = none ∧
        (recoverUpdate now j).error = some "Recovered from stale worker"))
  ∧ (∀ j : Job, j.status = JobStatus.dead →
      (if staleMatch (now - T) j then recoverUpdate now j else j) = j)
  ∧ (∀ j : Job, staleMatch (now - T) j = false →
      (if staleMatch (now - T) j then recoverUpdate now j else j) = j) := by
  refine ⟨rfl, rfl, ?_, ?_, ?_, ?_⟩
  · intro j
    cases hhb : j.heartbeat_at with
    | none =>
      simp [staleMatch, hhb]
    | some h =>
      simp [staleMatch, hhb, and_assoc]
  · intro j _
    exact ⟨rfl, rfl, rfl, rfl, rfl, rfl, rfl⟩
  · intro j hdead
    have : staleMatch (now - T) j = false := by
      simp [staleMatch, hdead]
    simp [this]
  · intro j hfalse
    simp [hfalse]

/-- Witness for C3 (amended claim applied to a genuinely stale job): a
CLAIMED job with `heartbeat_at = 0` and retries remaining is recovered. -/
theorem recover_stale_jobs_correct_witness :
    (if staleMatch (1000 - 300) backoffJob then recoverUpdate 1000 backoffJob
      else backoffJob).status = JobStatus.pending := by
  have h := ((recover_stale_jobs_correct [backoffJob] 300 1000).2.2.2.1
    backoffJob (by decide)).1
  have hm : staleMatch (1000 - 300) backoffJob = true := by decide
  rw [hm]
  simpa using h

/-! ## Agent driver (src/backend/src/workbench/worker/executor.py)

The driver consumes the agent's tagged message stream.  Cost and token
accounting, log streaming and the textual prompt do not influence any claim
and are omitted.  A wall-clock timeout or an SDK exception truncates the
stream; they are modelled by the externally supplied `timed_out` /
`error_message` values that the driver's `except` clauses would have set. -/

structure QuestionOptionData where
  label : String
  description : String
  deriving DecidableEq, Repr

/-- One entry of an AskUserQuestion `questions` list, with the dict-lookup
defaults (`question`/`header` default to "", `options` to `[]`,
`multiSelect` to `false`) already applied. -/
structure QuestionData where
  question : String
  header : String
  options : List QuestionOptionData
  multiSelect : Bool
  deriving DecidableEq, Repr

/-- Terminal `ResultMessage` of the agent stream. -/
structure ResultMessageData where
  session_id : String
  is_error : Bool
  num_turns : Nat
  deriving DecidableEq, Repr

/-- Content block of an assistant message: `TextBlock` or `ToolUseBlock`
(whose input carries a `questions` list when the tool is AskUserQuestion). -/
inductive ContentBlock
  | textBlock (text : String)
  | toolUseBlock (id : String) (name : String) (questions : List QuestionData)
  deriving DecidableEq, Repr

/-- The agent's tagged message stream
(`System | Assistant | User | Result`); `User` tool-result content does not
influence any claim. -/
inductive SDKMessage
  | system
  | assistant (content : List ContentBlock)
  | user
  | result (r : ResultMessageData)
  deriving DecidableEq, Repr

/-- One recorded AskUserQuestion invocation (`{"id": "auq_<i>",
"questions": [...]}`). -/
structure QuestionsEntry where
  id : String
  questions : List QuestionData
  deriving DecidableEq, Repr

inductive PermissionResult
  | allow
  | deny (message : String) (interrupt : Bool)
  deriving DecidableEq, Repr

/-- Mutable state of one `execute` run. -/
structure ExecState where
  final_text_parts : List String
  questions_asked : List QuestionsEntry
  tool_call_count : Nat
  turn_count : Nat
  budget_exceeded : Bool
  interrupted_for_questions : Bool
  result_message : Option ResultMessageData
  deriving DecidableEq, Repr

def initExecState : ExecState :=
  { final_text_parts := [], questions_asked := [], tool_call_count := 0,
    turn_count := 0, budget_exceeded := false,
    interrupted_for_questions := false, result_message := none }

/-- `can_use_tool_handler` (executor.py:266-364).  On AskUserQuestion it
records the questions under id `auq_<index>`; when both callbacks are
present it persists the questions, polls until every clarification is
answered and allows the tool with the answers injected (the polling loop
always terminates with answers in the model); otherwise it denies with an
interrupt and sets `interrupted_for_questions`.  Other tools are allowed. -/
def can_use_tool_handler (callbacksPresent : Bool) (toolName : String)
    (questions : List QuestionData) (st : ExecState) :
    PermissionResult × ExecState :=
  if toolName == "AskUserQuestion" then
    let entry : QuestionsEntry :=
      { id := "auq_" ++ toString st.questions_asked.length
        questions := questions }
    let st2 := { st with questions_asked := st.questions_asked ++ [entry] }
    if callbacksPresent then (PermissionResult.allow, st2)
    else
      (PermissionResult.deny
          "AskUserQuestion requires human input but no callback provided" true,
        { st2 with interrupted_for_questions := true })
  else (PermissionResult.allow, st)

/-- executor.py:367: the permission handler is passed to the SDK only when
both `on_questions_asked` and `poll_for_answers` are supplied. -/
def canUseToolInstalled (on_questions_asked poll_for_answers : Bool) : Bool :=
  on_questions_asked && poll_for_answers

/-- Block loop of an assistant message (executor.py:402-428): text blocks
accumulate into the final text, every tool use (after consulting the
permission handler when one is installed) increments the tool-call count,
and reaching `max_tool_calls` sets `budget_exceeded` and interrupts. -/
def processBlocks (installed callbacksPresent : Bool) (max_tool_calls : Nat) :
    List ContentBlock → ExecState → ExecState
  | [], st => st
  | ContentBlock.textBlock t :: rest, st =>
      processBlocks installed callbacksPresent max_tool_calls rest
        { st with final_text_parts := st.final_text_parts ++ [t] }
  | ContentBlock.toolUseBlock _ name questions :: rest, st =>
      let st1 :=
        if installed then
          (can_use_tool_handler callbacksPresent name questions st).2
        else st
      let st2 := { st1 with tool_call_count := st1.tool_call_count + 1 }
      if max_tool_calls ≤ st2.tool_call_count then
        { st2 with budget_exceeded := true }
      else
        processBlocks installed callbacksPresent max_tool_calls rest st2

/-- Message loop of `execute` (executor.py:382-484): assistant messages bump
the turn counter and run the block loop, a `Result` message is recorded and
terminates, and the loop stops after a budget overrun or an interrupt for
questions. -/
def processMessages (installed callbacksPresent : Bool) (max_tool_calls : Nat) :
    List SDKMessage → ExecState → ExecState
  | [], st => st
  | SDKMessage.system :: rest, st =>
      processMessages installed callbacksPresent max_tool_calls rest st
  | SDKMessage.user :: rest, st =>
      processMessages installed callbacksPresent max_tool_calls rest st
  | SDKMessage.result r :: _, st => { st with result_message := some r }
  | SDKMessage.assistant blocks :: rest, st =>
      let st1 := processBlocks installed callbacksPresent max_tool_calls blocks
        { st with turn_count := st.turn_count + 1 }
      if st1.budget_exceeded || st1.interrupted_for_questions then st1
      else processMessages installed callbacksPresent max_tool_calls rest st1

/-- The structured result of `execute` (executor.py:53-65, 530-550).
`output`'s claim-relevant keys are flattened into `error` and
`result_message`; `metrics` and `prompt` are omitted. -/
structure ExecutionResult where
  success : Bool
  timed_out : Bool
  budget_exceeded : Bool
  final_text : String
  questions_asked : List QuestionsEntry
  interrupted_for_questions : Bool
  error : Option String
  result_message : Option ResultMessageData
  deriving DecidableEq, Repr

/-- `ClaudeCodeExecutor.execute` (executor.py:217-550): run the message loop
over the stream the agent produced, then assemble the `ExecutionResult`,
with `success = not timed_out and not budget_exceeded and error_message is
None and (result_message is None or not result_message.is_error)`. -/
def executeModel (on_questions_asked poll_for_answers : Bool)
    (max_tool_calls : Nat) (messages : List SDKMessage)
    (timed_out : Bool) (error_message : Option String) : ExecutionResult :=
  let installed := canUseToolInstalled on_questions_asked poll_for_answers
  let st := processMessages installed
    (on_questions_asked && poll_for_answers) max_tool_calls messages
    initExecState
  let success := !timed_out && !st.budget_exceeded && error_message.isNone &&
    (match st.result_message with
     | none => true
     | some r => !r.is_error)
  { success := success
    timed_out := timed_out
    budget_exceeded := st.budget_exceeded
    final_text := String.intercalate "\n" st.final_text_parts
    questions_asked := st.questions_asked
    interrupted_for_questions := st.interrupted_for_questions
    error := error_message
    result_message := st.result_message }

/-- C4: for every run of the driver, `success = true` iff not timed out, the
budget was not exceeded, no error was captured, and either no terminal
Result message was received or it has `is_error = false`. -/
theorem execute_success_iff (onQ pollA : Bool) (maxTC : Nat)
    (messages : List SDKMessage) (timedOut : Bool) (err : Option String) :
    (executeModel onQ pollA maxTC messages timedOut err).success = true ↔
      ((executeModel onQ pollA maxTC messages timedOut err).timed_out = false ∧
       (executeModel onQ pollA maxTC messages timedOut err).budget_exceeded = false ∧
       (executeModel onQ pollA maxTC messages timedOut err).error = none ∧
       ((executeModel onQ pollA maxTC messages timedOut err).result_message = none ∨
         ∃ r, (executeModel onQ pollA maxTC messages timedOut err).result_message
                = some r ∧ r.is_error = false)) := by
  simp only [executeModel]
  cases timedOut <;> cases err <;>
    cases hres : (processMessages (canUseToolInstalled onQ pollA)
      (onQ && pollA) maxTC messages initExecState).result_message <;>
    simp [hres, Option.isNone]

/-- Mock `success` scenario message stream (mock_client.py:138-180). -/
def successMessages : List SDKMessage :=
  [SDKMessage.system,
   SDKMessage.assistant
     [ContentBlock.textBlock "Let me analyze the task and explore the codebase.",
      ContentBlock.toolUseBlock "toolu_m1" "Glob" []],
   SDKMessage.user,
   SDKMessage.assistant
     [ContentBlock.textBlock "Based on my analysis, here is the implementation spec."],
   SDKMessage.result
     { session_id := "mock_1", is_error := false, num_turns := 2 }]

/-- Witness for C4: the mock success scenario yields `success = true`. -/
theorem execute_success_iff_witness :
    (executeModel true true 200 successMessages false none).success = true := by
  refine (execute_success_iff true true 200 successMessages false none).mpr
    ⟨rfl, by decide, rfl, ?_⟩
  right
  exact ⟨{ session_id := "mock_1", is_error := false, num_turns := 2 },
    by decide, rfl⟩

/-! ### Blocking mode (claim C6)

With the callbacks absent, executor.py:367 passes `can_use_tool=None` to the
SDK, so `can_use_tool_handler` — and in particular its deny-and-interrupt
branch at executor.py:351-358 — never runs. -/

theorem processBlocks_not_installed (cb : Bool) (mtc : Nat)
    (bs : List ContentBlock) (st : ExecState) :
    (processBlocks false cb mtc bs st).interrupted_for_questions =
        st.interrupted_for_questions ∧
      (processBlocks false cb mtc bs st).questions_asked = st.questions_asked := by
  induction bs generalizing st with
  | nil => exact ⟨rfl, rfl⟩
  | cons b rest ih =>
    cases b with
    | textBlock t => exact ih _
    | toolUseBlock i name questions =>
      simp only [processBlocks]
      by_cases hb : mtc ≤ st.tool_call_count + 1 <;> simp [hb, ih]

theorem processMessages_not_installed (cb : Bool) (mtc : Nat)
    (msgs : List SDKMessage) (st : ExecState) :
    (processMessages false cb mtc msgs st).interrupted_for_questions =
        st.interrupted_for_questions ∧
      (processMessages false cb mtc msgs st).questions_asked =
        st.questions_asked := by
  induction msgs generalizing st with
  | nil => exact ⟨rfl, rfl⟩
  | cons m rest ih =>
    cases m with
    | system => exact ih _
    | user => exact ih _
    | result r => exact ⟨rfl, rfl⟩
    | assistant blocks =>
      simp only [processMessages]
      have hb := processBlocks_not_installed cb mtc blocks
        { st with turn_count := st.turn_count + 1 }
      by_cases hstop : ((processBlocks false cb mtc blocks
          { st with turn_count := st.turn_count + 1 }).budget_exceeded ||
          (processBlocks false cb mtc blocks
            { st with turn_count := st.turn_count + 1 }).interrupted_for_questions)
          = true
      · rw [if_pos hstop]
        exact ⟨hb.1, hb.2⟩
      · rw [if_neg hstop]
        exact ⟨((ih _).1).trans hb.1, ((ih _).2).trans hb.2⟩

/-- The mock `ask_user_question` scenario stream (mock_client.py:33-115), up
to the AskUserQuestion turn after which the mock waits for a follow-up
query; the random tool-use ids are fixed arbitrarily. -/
def askUserQuestionMessages : List SDKMessage :=
  [SDKMessage.system,
   SDKMessage.assistant
     [ContentBlock.textBlock "Let me explore the codebase first.",
      ContentBlock.toolUseBlock "toolu_a1" "Glob" []],
   SDKMessage.user,
   SDKMessage.assistant
     [ContentBlock.textBlock "Let me read the main file.",
      ContentBlock.toolUseBlock "toolu_a2" "Read" []],
   SDKMessage.user,
   SDKMessage.assistant
     [ContentBlock.textBlock
        "I have some questions before proceeding with the implementation.",
      ContentBlock.toolUseBlock "toolu_a3" "AskUserQuestion"
        [{ question := "Which database should I use for storing user data?"
           header := "Database"
           options :=
             [{ label := "PostgreSQL"
                description := "Relational database with strong consistency" },
              { label := "MongoDB"
                description := "Document database with flexible schema" },
              { label := "SQLite"
                description := "Lightweight file-based database" }]
           multiSelect := false },
         { question := "Should the API require authentication?"
           header := "Auth"
           options :=
             [{ label := "Yes, JWT tokens"
                description := "Secure with JSON Web Tokens" },
              { label := "Yes, API keys"
                description := "Simple API key authentication" },
              { label := "No auth needed", description := "Public API" }]
           multiSelect := false }]]]

/-- C6: with `on_questions_asked` / `poll_for_answers` absent, the permission
handler is not installed (executor.py:367), so the driver never denies the
ask-user tool and never signals an interrupt: for every message stream the
returned result has `interrupted_for_questions = false` and an empty
`questions_asked` — in particular on the mock ask_user_question scenario.
This contradicts the claim, which expects `interrupted_for_questions = true`
with one `questions_asked` entry; the deny branch the claim describes
(executor.py:351-358) is unreachable. -/
theorem blocking_mode_never_interrupts :
    (∀ (maxTC : Nat) (messages : List SDKMessage) (timedOut : Bool)
        (err : Option String),
      (executeModel false false maxTC messages timedOut err).interrupted_for_questions
          = false ∧
        (executeModel false false maxTC messages timedOut err).questions_asked = [])
  ∧ ((executeModel false false 200 askUserQuestionMessages false
        none).interrupted_for_questions = false ∧
      (executeModel false false 200 askUserQuestionMessages false
        none).questions_asked = []) := by
  have hgen : ∀ (maxTC : Nat) (messages : List SDKMessage) (timedOut : Bool)
      (err : Option String),
      (executeModel false false maxTC messages timedOut err).interrupted_for_questions
          = false ∧
        (executeModel false false maxTC messages timedOut err).questions_asked
          = [] := by
    intro maxTC messages timedOut err
    have h := processMessages_not_installed false maxTC messages initExecState
    simp only [executeModel, canUseToolInstalled, Bool.and_self]
    exact ⟨h.1, h.2⟩
  exact ⟨hgen, hgen 200 askUserQuestionMessages false none⟩

/-! ## Attempt status and diff statistics

`AttemptStatus` is the single enum defined in the sources
(src/backend/src/workbench/models/attempt.py:20-28); `DiffStats` comes from
src/backend/src/workbench/worker/sandbox.py:13-27. -/

/-- Status of an attempt.  The enum has exactly these six members — in
particular no ERROR, COMPLETE or WAITING member. -/
inductive AttemptStatus
  | pending
  | running
  | success
  | needs_human
  | failed
  | noop
  deriving DecidableEq, Repr

/-- Python's `AttemptStatus.<NAME>` attribute lookup: the members defined in
the class body of models/attempt.py:20-28, `none` for any other name (an
`AttributeError` at runtime). -/
def attemptStatusMember : String → Option AttemptStatus := fun name =>
  if name = "PENDING" then some AttemptStatus.pending
  else if name = "RUNNING" then some AttemptStatus.running
  else if name = "SUCCESS" then some AttemptStatus.success
  else if name = "NEEDS_HUMAN" then some AttemptStatus.needs_human
  else if name = "FAILED" then some AttemptStatus.failed
  else if name = "NOOP" then some AttemptStatus.noop
  else none

/-- The `.value` strings of the `AttemptStatus` members. -/
def attemptStatusValue : AttemptStatus → String
  | AttemptStatus.pending => "pending"
  | AttemptStatus.running => "running"
  | AttemptStatus.success => "success"
  | AttemptStatus.needs_human => "needs_human"
  | AttemptStatus.failed => "failed"
  | AttemptStatus.noop => "noop"

/-- Git diff statistics. -/
structure DiffStats where
  lines_added : Int := 0
  lines_deleted : Int := 0
  files_touched : Option (List String) := none
  deriving DecidableEq, Repr

def DiffStats.total_lines (d : DiffStats) : Int :=
  d.lines_added + d.lines_deleted

/-- `len(files_touched) if files_touched else 0` (`None` and `[]` both give
0, which equals the length in every case). -/
def DiffStats.files_count (d : DiffStats) : Nat :=
  match d.files_touched with
  | some l => l.length
  | none => 0

/-! ## Outcome classifier (src/backend/src/workbench/worker/classifier.py)

The regexes of the classifier fall into two shapes: the PR-URL pattern
`https://github\.com/[^/]+/[^/]+/pull/\d+` (handled by a dedicated matcher
below, equivalent to the greedy regex because each character class excludes
the character that follows it) and the stuck patterns, each a concatenation
of literals and alternations of literals (represented as a list of
alternation groups).  `_extract_assumptions` feeds only the `assumptions`
output field, which no claim mentions; it is omitted. -/

/-- Strip the literal `pat` from the head of `s`. -/
def stripPrefixChars : List Char → List Char → Option (List Char)
  | [], s => some s
  | _ :: _, [] => none
  | c :: cs, d :: ds => if c = d then stripPrefixChars cs ds else none

/-- Match `https://github\.com/[^/]+/[^/]+/pull/\d+` at the head of `s`,
returning the matched characters.  Each `[^/]+` / final `\d+` is taken as a
maximal run, which coincides with the greedy backtracking semantics since
`[^/]` cannot consume the `/` that must follow and `\d+` ends the pattern. -/
def matchPRAt (s : List Char) : Option (List Char) :=
  match stripPrefixChars "https://github.com/".toList s with
  | none => none
  | some s1 =>
    let owner := s1.takeWhile (fun c => c ≠ '/')
    if owner.isEmpty then none
    else
      match s1.drop owner.length with
      | '/' :: s3 =>
        let repo := s3.takeWhile (fun c => c ≠ '/')
        if repo.isEmpty then none
        else
          match stripPrefixChars "/pull/".toList (s3.drop repo.length) with
          | none => none
          | some s5 =>
            let digits := s5.takeWhile Char.isDigit
            if digits.isEmpty then none
            else
              some ("https://github.com/".toList ++ owner ++
                '/' :: repo ++ "/pull/".toList ++ digits)
      | _ => none

/-- Leftmost regex match over all start positions (`re.search`). -/
def searchPRChars : List Char → Option String
  | [] => none
  | c :: t =>
    match matchPRAt (c :: t) with
    | some m => some (String.mk m)
    | none => searchPRChars t

/-- `OutcomeClassifier._extract_pr_url` (classifier.py:289-292). -/
def extract_pr_url (text : String) : Option String :=
  searchPRChars text.toList

/-- A stuck-condition regex: its source text and its shape as a sequence of
literal-alternation groups. -/
structure StuckPattern where
  src : String
  groups : List (List String)
  deriving DecidableEq, Repr

/-- Match a sequence of alternation groups at the head of `s`. -/
def seqMatchAt : List (List String) → List Char → Bool
  | [], _ => true
  | alts :: rest, s =>
    alts.any fun a =>
      match stripPrefixChars a.toList s with
      | some s2 => seqMatchAt rest s2
      | none => false

/-- `re.search` for a sequence of alternation groups: try every start
position, leftmost first. -/
def searchSeq (groups : List (List String)) : List Char → Bool
  | [] => seqMatchAt groups []
  | c :: t => seqMatchAt groups (c :: t) || searchSeq groups t

/-- An ASCII apostrophe (for the `couldn't` literal). -/
def apos : String := String.mk [Char.ofNat 39]

/-- `OutcomeClassifier.STUCK_PATTERNS` (classifier.py:50-75), in class-body
order.  `re.IGNORECASE` is modelled by lowering the text before matching —
every pattern is already lower-case (`I` in the source regex matches `i`). -/
def stuckPatternTable : List (String × List StuckPattern) :=
  [("repo_ambiguity",
    [{ src := "which (repo|repository|branch|file)"
       groups := [["which "], ["repo", "repository", "branch", "file"]] },
     { src := "unclear (which|what) (to modify|to change)"
       groups := [["unclear "], ["which", "what"], [" "],
         ["to modify", "to change"]] },
     { src := "multiple (repos|repositories|options)"
       groups := [["multiple "], ["repos", "repositories", "options"]] }]),
   ("semantic_ambiguity",
    [{ src := "could (mean|interpret)"
       groups := [["could "], ["mean", "interpret"]] },
     { src := "multiple (interpretations|meanings)"
       groups := [["multiple "], ["interpretations", "meanings"]] },
     { src := "need clarification"
       groups := [["need clarification"]] },
     { src := "not sure (if|whether|what)"
       groups := [["not sure "], ["if", "whether", "what"]] },
     { src := "unclear (what you mean|intent|requirement)"
       groups := [["unclear "], ["what you mean", "intent", "requirement"]] }]),
   ("missing_decision",
    [{ src := "product decision", groups := [["product decision"]] },
     { src := "design decision", groups := [["design decision"]] },
     { src := "(should|would) (i|we|it) (use|choose|prefer)"
       groups := [["should", "would"], [" "], ["i", "we", "it"], [" "],
         ["use", "choose", "prefer"]] },
     { src := "which (approach|method|pattern)"
       groups := [["which "], ["approach", "method", "pattern"]] }]),
   ("env_blocker",
    [{ src := "(missing|not found|cannot find) (dependency|package|module)"
       groups := [["missing", "not found", "cannot find"], [" "],
         ["dependency", "package", "module"]] },
     { src := "permission denied", groups := [["permission denied"]] },
     { src := "access denied", groups := [["access denied"]] },
     { src := "(cannot|couldn" ++ apos ++ "t) (connect|access|reach)"
       groups := [["cannot", "couldn" ++ apos ++ "t"], [" "],
         ["connect", "access", "reach"]] }])]

/-- An option of a structured question (classifier.py:12-17). -/
structure QuestionOption where
  label : String
  description : String := ""
  deriving DecidableEq, Repr

/-- A question extracted from the agent's output (classifier.py:20-30). -/
structure Question where
  question : String
  why_needed : String := ""
  proposed_default : Option String := none
  evidence : List String := []
  options : List QuestionOption := []
  multi_select : Bool := false
  deriving DecidableEq, Repr

/-- Result of attempt classification (classifier.py:33-43); the
`assumptions` field, touched by no claim, is omitted. -/
structure ClassificationResult where
  status : AttemptStatus
  questions : List Question := []
  risk_flags : List String := []
  pr_url : Option String := none
  what_changed : List String := []
  error_message : Option String := none
  deriving DecidableEq, Repr

/-- `OutcomeClassifier._detect_stuck_patterns` (classifier.py:271-287): for
each category the first matching pattern contributes one synthetic
question. -/
def detect_stuck_patterns (text : String) : List Question :=
  let lowered := text.toList.map Char.toLower
  (stuckPatternTable.map fun cat =>
    match cat.2.find? (fun p => searchSeq p.groups lowered) with
    | some p =>
      [{ question := "Clarification needed (" ++ cat.1 ++ ")"
         why_needed := "Detected " ++ cat.1 ++ " pattern in output"
         proposed_default := none
         evidence := [p.src]
         options := []
         multi_select := false }]
    | none => []).flatten

/-- `OutcomeClassifier._extract_questions_from_result`
(classifier.py:206-249): questions already answered during bidirectional
communication (`interrupted_for_questions = false`) are not returned. -/
def extract_questions_from_result (r : ExecutionResult) : List Question :=
  if !r.interrupted_for_questions && !r.questions_asked.isEmpty then []
  else
    (r.questions_asked.map fun qa =>
      qa.questions.map fun q =>
        { question := q.question
          why_needed := q.header
          proposed_default := none
          evidence := []
          options := q.options.map fun o =>
            { label := o.label, description := o.description }
          multi_select := q.multiSelect }).flatten

/-- `OutcomeClassifier.classify` (classifier.py:88-179).  `all_text` is
`final_text or _extract_all_text(output)`; since `output["final_text"]` is
the same joined string, both branches coincide with `final_text`. -/
def classify (max_diff_lines : Int) (max_files_touched : Nat)
    (execution_result : ExecutionResult) (diff_stats : DiffStats) :
    ClassificationResult :=
  if execution_result.timed_out then
    { status := AttemptStatus.failed
      error_message := some "Execution timed out"
      risk_flags := ["TIMEOUT"] }
  else if execution_result.budget_exceeded then
    { status := AttemptStatus.failed
      error_message := some "Tool call budget exceeded"
      risk_flags := ["BUDGET_EXCEEDED"] }
  else
    let all_text := execution_result.final_text
    let questions := extract_questions_from_result execution_result
    if !questions.isEmpty then
      { status := AttemptStatus.needs_human
        questions := questions
        what_changed := diff_stats.files_touched.getD [] }
    else
      let implicit_stuck :=
        if diff_stats.files_count == 0 && execution_result.success then
          detect_stuck_patterns all_text
        else []
      if !implicit_stuck.isEmpty then
        { status := AttemptStatus.needs_human
          questions := implicit_stuck
          what_changed := [] }
      else if !execution_result.success then
        { status := AttemptStatus.failed
          error_message := some ("Execution failed: " ++
            (execution_result.error.getD "Unknown error"))
          risk_flags := ["EXECUTION_ERROR"] }
      else
        let pr_url := extract_pr_url all_text
        let risk_flags :=
          (if max_diff_lines < diff_stats.total_lines then
            ["DIFF_SIZE_EXCEEDED:" ++ toString diff_stats.total_lines]
          else []) ++
          (if max_files_touched < diff_stats.files_count then
            ["FILES_EXCEEDED:" ++ toString diff_stats.files_count]
          else [])
        let status :=
          if pr_url.isSome then AttemptStatus.success
          else if diff_stats.files_count == 0 then AttemptStatus.noop
          else AttemptStatus.success
        { status := status
          pr_url := pr_url
          what_changed := diff_stats.files_touched.getD []
          risk_flags := risk_flags }

/-- A successful execution whose final text mentions a PR URL while the
working tree is untouched (`files_count = 0`), with no questions. -/
def prOnlyExec : ExecutionResult :=
  { success := true, timed_out := false, budget_exceeded := false,
    final_text := "Opened https://github.com/acme/repo/pull/7",
    questions_asked := [], interrupted_for_questions := false,
    error := none, result_message := none }

def emptyDiff : DiffStats :=
  { lines_added := 0, lines_deleted := 0, files_touched := none }

/-- Counterexample to C5 as stated: the input reaches the final
classification step with `files_count = 0`, a PR URL is extracted, and the
returned status is SUCCESS — not the NOOP the claim requires for
`files_count = 0` — because classifier.py:165-171 tests `pr_url` before
`files_count == 0`. -/
theorem classify_counterexample :
    prOnlyExec.timed_out = false ∧ prOnlyExec.budget_exceeded = false ∧
    prOnlyExec.success = true ∧ emptyDiff.files_count = 0 ∧
    (classify 800 40 prOnlyExec emptyDiff).questions = [] ∧
    (classify 800 40 prOnlyExec emptyDiff).pr_url =
      some "https://github.com/acme/repo/pull/7" ∧
    (classify 800 40 prOnlyExec emptyDiff).status = AttemptStatus.success := by
  refine ⟨rfl, rfl, rfl, rfl, ?_, ?_, ?_⟩ <;> decide

/-- C5 (amended): for every input that reaches the final classification step
(not timed out, budget not exceeded, no explicit questions, no implicit
stuck questions when `files_count = 0`, success), the first PR URL matching
`https://github\.com/[^/]+/[^/]+/pull/\d+` is extracted from the final text
and attached, and the returned status is SUCCESS whenever a PR URL was
extracted; otherwise NOOP when `files_count = 0`, else SUCCESS. -/
theorem classify_final_step (mdl : Int) (mft : Nat)
    (r : ExecutionResult) (d : DiffStats)
    (h1 : r.timed_out = false) (h2 : r.budget_exceeded = false)
    (h3 : extract_questions_from_result r = [])
    (h4 : d.files_count = 0 → detect_stuck_patterns r.final_text = [])
    (h5 : r.success = true) :
    (classify mdl mft r d).pr_url = extract_pr_url r.final_text ∧
    (classify mdl mft r d).status =
      (if (extract_pr_url r.final_text).isSome then AttemptStatus.success
       else if d.files_count = 0 then AttemptStatus.noop
       else AttemptStatus.success) := by
  by_cases hfc : d.files_count = 0
  · simp [classify, h1, h2, h3, h5, hfc, h4 hfc]
  · simp [classify, h1, h2, h3, h5, hfc]

/-- Witness for C5 (amended): a PR URL in the final text of a no-diff run is
extracted and yields SUCCESS. -/
theorem classify_final_step_witness :
    (classify 800 40 prOnlyExec emptyDiff).pr_url =
        some "https://github.com/acme/repo/pull/7" ∧
      (classify 800 40 prOnlyExec emptyDiff).status = AttemptStatus.success := by
  have h := classify_final_step 800 40 prOnlyExec emptyDiff rfl rfl
    (by decide) (fun _ => by decide) rfl
  refine ⟨h.1.trans (by decide), h.2.trans ?_⟩
  decide

/-! ## AttemptRunner step 2 (src/backend/src/workbench/worker/runner.py:122-131) -/

/-- A row of the `attempts` table; `summary_json`, `runner_metadata_json`
and `pr_number` do not influence the claims. -/
structure Attempt where
  id : Nat
  signal_id : Nat
  status : AttemptStatus
  attempt_number : Nat
  started_at : Option Int
  finished_at : Option Int
  pr_url : Option String
  branch_name : Option String
  error_message : Option String
  deriving DecidableEq, Repr

/-- The runner's transition of the attempt to RUNNING:
`UPDATE attempts SET status = RUNNING, started_at = now WHERE id = :attempt_id`,
executed unconditionally — runner.py:122-131 has no null-check on
`started_at` and no forward-only guard on `status`. -/
def runnerSetRunning (attempts : List Attempt) (attempt_id : Nat)
    (now : Int) : List Attempt :=
  attempts.map fun a =>
    if a.id == attempt_id then
      { a with status := AttemptStatus.running, started_at := some now }
    else a

/-- An attempt being re-executed by a job-layer retry: `started_at` was
recorded at 100 and a later status (NEEDS_HUMAN) was already reached. -/
def reexecutedAttempt : Attempt :=
  { id := 1, signal_id := 1, status := AttemptStatus.needs_human,
    attempt_number := 1, started_at := some 100, finished_at := some 150,
    pr_url := none, branch_name := none, error_message := none }

/-- C7: the RUNNING transition is not idempotent.  Re-executing attempt 1 at
`t = 200` overwrites the recorded `started_at = 100` with 200 and moves the
status back from NEEDS_HUMAN to RUNNING, contradicting the claim that
`started_at` is only set when null and that status only advances. -/
theorem runner_set_running_not_idempotent :
    runnerSetRunning [reexecutedAttempt] 1 200 =
      [{ reexecutedAttempt with
          status := AttemptStatus.running, started_at := some 200 }] ∧
    (runnerSetRunning [reexecutedAttempt] 1 200).map Attempt.started_at =
      [some 200] ∧
    (runnerSetRunning [reexecutedAttempt] 1 200).map Attempt.status =
      [AttemptStatus.running] := by
  refine ⟨?_, ?_, ?_⟩ <;> decide

/-! ## Attempt cancellation (src/backend/src/workbench/api/routes/attempts.py:150-184) -/

/-- Errors surfaced by the API routes: `HTTPException(404)`,
`HTTPException(400)` and an uncaught Python `AttributeError`. -/
inductive ApiError
  | notFound (detail : String)
  | badRequest (detail : String)
  | attributeError (name : String)
  deriving DecidableEq, Repr

/-- `cancel_attempt`: look up the attempt, reject statuses outside
PENDING/RUNNING with a 400, then execute
`attempt.status = AttemptStatus.ERROR; ...`.  The right-hand side of that
assignment is the attribute lookup `AttemptStatus.ERROR`, which is not a
member of the enum (models/attempt.py:20-28), so an `AttributeError` is
raised before any row is modified; on an error nothing is flushed, so the
returned table states are unchanged. -/
def cancel_attempt (attempts : List Attempt) (jobs : List Job)
    (attempt_id : Nat) (now : Int) :
    Except ApiError (List Attempt × List Job × Attempt) :=
  match attempts.find? (fun a => a.id == attempt_id) with
  | none => Except.error (ApiError.notFound "Attempt not found")
  | some attempt =>
    if !(attempt.status == AttemptStatus.pending ||
        attempt.status == AttemptStatus.running) then
      Except.error (ApiError.badRequest
        ("Cannot cancel attempt in " ++ attemptStatusValue attempt.status ++
          " status"))
    else
      match attemptStatusMember "ERROR" with
      | none => Except.error (ApiError.attributeError "ERROR")
      | some errStatus =>
        let a2 := { attempt with
          status := errStatus
          error_message := some "Cancelled by user"
          finished_at := some now }
        let jobs2 := jobs.map fun job =>
          if job.attempt_id == some attempt_id &&
              (job.status == JobStatus.pending ||
                job.status == JobStatus.claimed) then
            { job with
              status := JobStatus.failed
              error := some "Cancelled by user" }
          else job
        Except.ok
          (attempts.map (fun a => if a.id == attempt_id then a2 else a),
            jobs2, a2)

/-- A RUNNING attempt a user asks to cancel. -/
def cancellableAttempt : Attempt :=
  { id := 2, signal_id := 1, status := AttemptStatus.running,
    attempt_number := 1, started_at := some 10, finished_at := none,
    pr_url := none, branch_name := none, error_message := none }

/-- C8: cancelling a PENDING or RUNNING attempt can never succeed: the
update references `AttemptStatus.ERROR`, which does not exist in the enum,
so the route raises an `AttributeError` (HTTP 500) and no attempt or job row
is changed; the rejection path for other statuses does answer with a 400
error.  This contradicts the claim, which says the attempt is set to a
terminal cancelled status with its jobs marked FAILED. -/
theorem cancel_attempt_attribute_error :
    cancellableAttempt.status = AttemptStatus.running ∧
    attemptStatusMember "ERROR" = none ∧
    cancel_attempt [cancellableAttempt] [exhaustedStaleJob] 2 500 =
      Except.error (ApiError.attributeError "ERROR") ∧
    cancel_attempt [{ cancellableAttempt with status := AttemptStatus.success }]
        [] 2 500 =
      Except.error
        (ApiError.badRequest "Cannot cancel attempt in success status") := by
  refine ⟨rfl, rfl, ?_, ?_⟩ <;> rfl

/-! ## Clarifications (src/backend/src/workbench/models/clarification.py,
src/backend/src/workbench/api/routes/clarifications.py) -/

/-- A row of the `clarifications` table (`anchors_json` does not influence
the claims). -/
structure Clarification where
  id : Nat
  attempt_id : Nat
  question_id : String
  question_text : String
  question_context : Option String
  default_answer : Option String
  accepted_default : Bool
  answer_text : Option String
  answered_at : Option Int
  answered_by : Option String
  deriving DecidableEq, Repr

/-- `Clarification.is_answered` (clarification.py:55-58):
`answer_text is not None or accepted_default`. -/
def Clarification.is_answered (c : Clarification) : Bool :=
  c.answer_text.isSome || c.accepted_default

/-- `Clarification.effective_answer` (clarification.py:60-67). -/
def Clarification.effective_answer (c : Clarification) : Option String :=
  match c.answer_text with
  | some a => some a
  | none =>
    if c.accepted_default && c.default_answer.isSome then c.default_answer
    else none

/-- `effective_answer` as the claim words it: `answer_text` when present,
else `default_answer` when `accepted_default` is true, else null.  This is
the spec-side definition, to be compared with the source's
`Clarification.effective_answer`. -/
def effectiveAnswerSpec (c : Clarification) : Option String :=
  match c.answer_text with
  | some a => some a
  | none => if c.accepted_default then c.default_answer else none

/-- C9: `is_answered` holds iff `answer_text` is non-null or
`accepted_default`, and `effective_answer` agrees with the claim's
definition (when `accepted_default` is set with no `default_answer`, both
yield null). -/
theorem clarification_derived_correct (c : Clarification) :
    (c.is_answered = true ↔
      (c.answer_text ≠ none ∨ c.accepted_default = true))
  ∧ c.effective_answer = effectiveAnswerSpec c := by
  constructor
  · simp [Clarification.is_answered, Option.isSome_iff_ne_none]
  · cases hat : c.answer_text with
    | some a => simp [Clarification.effective_answer, effectiveAnswerSpec, hat]
    | none =>
      cases had : c.accepted_default with
      | false =>
        simp [Clarification.effective_answer, effectiveAnswerSpec, hat, had]
      | true =>
        cases hda : c.default_answer with
        | none =>
          simp [Clarification.effective_answer, effectiveAnswerSpec, hat, had,
            hda]
        | some d =>
          simp [Clarification.effective_answer, effectiveAnswerSpec, hat, had,
            hda]

/-- An unanswered clarification carrying a default answer. -/
def pendingClar : Clarification :=
  { id := 3, attempt_id := 1, question_id := "auq_0_0",
    question_text := "Which database should I use for storing user data?",
    question_context := some "Database", default_answer := some "PostgreSQL",
    accepted_default := false, answer_text := none, answered_at := none,
    answered_by := none }

/-- Witness for C9 at a concrete answered row. -/
theorem clarification_derived_correct_witness :
    ({ pendingClar with answer_text := some "MongoDB" } :
        Clarification).is_answered = true ∧
      ({ pendingClar with answer_text := some "MongoDB" } :
        Clarification).effective_answer = some "MongoDB" := by
  have h := clarification_derived_correct
    { pendingClar with answer_text := some "MongoDB" }
  exact ⟨h.1.mpr (Or.inl (by decide)), h.2.trans (by decide)⟩

/-- Request body `ClarificationSubmit` (schemas/clarification.py:29-34). -/
structure ClarificationSubmit where
  answer_text : Option String := none
  accepted_default : Bool := false
  answered_by : Option String := none
  deriving DecidableEq, Repr

/-- Python truthiness of an optional string: `None` and `""` are falsy. -/
def strTruthy : Option String → Bool
  | none => false
  | some s => !(s == "")

/-- The successful-path field update of `submit_clarification`
(clarifications.py:111-114). -/
def submitUpdate (sub : ClarificationSubmit) (now : Int)
    (c : Clarification) : Clarification :=
  { c with
    answer_text := sub.answer_text
    accepted_default := sub.accepted_default
    answered_at := some now
    answered_by := sub.answered_by }

/-- `submit_clarification` (clarifications.py:79-120).  Every error is
raised before anything is assigned, so the table is returned unchanged in
those cases; on success the four answer fields are written. -/
def submit_clarification (cs : List Clarification) (cid : Nat)
    (sub : ClarificationSubmit) (now : Int) :
    Except ApiError Clarification × List Clarification :=
  match cs.find? (fun c => c.id == cid) with
  | none => (Except.error (ApiError.notFound "Clarification not found"), cs)
  | some c =>
    if c.is_answered then
      (Except.error
        (ApiError.badRequest "Clarification has already been answered"), cs)
    else if !strTruthy sub.answer_text && !sub.accepted_default then
      (Except.error (ApiError.badRequest
        "Must provide answer_text or set accepted_default=true"), cs)
    else if sub.accepted_default && !strTruthy c.default_answer then
      (Except.error (ApiError.badRequest
        "Cannot accept default - no default answer available"), cs)
    else
      let c2 := submitUpdate sub now c
      (Except.ok c2, cs.map fun x => if x.id == cid then c2 else x)

/-- C10: submitting an answer is one-shot and atomic.  With the clarification
row `c` found under `cid`: an already-answered row, a submission with
neither a truthy `answer_text` nor `accepted_default`, or
`accepted_default` without a truthy `default_answer` each fail with an
error and leave the table unchanged; otherwise `answer_text`,
`accepted_default`, `answered_by` are recorded, `answered_at` is set, and
the updated row satisfies `is_answered`. -/
theorem submit_clarification_correct (cs : List Clarification) (cid : Nat)
    (sub : ClarificationSubmit) (now : Int) (c : Clarification)
    (hfind : cs.find? (fun x => x.id == cid) = some c) :
    (c.is_answered = true →
      submit_clarification cs cid sub now =
        (Except.error
          (ApiError.badRequest "Clarification has already been answered"), cs))
  ∧ (c.is_answered = false → strTruthy sub.answer_text = false →
      sub.accepted_default = false →
      submit_clarification cs cid sub now =
        (Except.error (ApiError.badRequest
          "Must provide answer_text or set accepted_default=true"), cs))
  ∧ (c.is_answered = false → sub.accepted_default = true →
      strTruthy c.default_answer = false →
      submit_clarification cs cid sub now =
        (Except.error (ApiError.badRequest
          "Cannot accept default - no default answer available"), cs))
  ∧ (c.is_answered = false →
      (strTruthy sub.answer_text = true ∨ sub.accepted_default = true) →
      (sub.accepted_default = true → strTruthy c.default_answer = true) →
      (submit_clarification cs cid sub now =
          (Except.ok (submitUpdate sub now c),
            cs.map fun x => if x.id == cid then submitUpdate sub now c else x) ∧
        (submitUpdate sub now c).is_answered = true ∧
        (submitUpdate sub now c).answer_text = sub.answer_text ∧
        (submitUpdate sub now c).accepted_default = sub.accepted_default ∧
        (submitUpdate sub now c).answered_by = sub.answered_by ∧
        (submitUpdate sub now c).answered_at = some now)) := by
  refine ⟨?_, ?_, ?_, ?_⟩
  · intro ha
    simp [submit_clarification, hfind, ha]
  · intro ha h1 h2
    simp [submit_clarification, hfind, ha, h1, h2]
  · intro ha h1 h2
    by_cases hat : strTruthy sub.answer_text = true
    · simp [submit_clarification, hfind, ha, h1, h2, hat]
    · simp only [Bool.not_eq_true] at hat
      simp [submit_clarification, hfind, ha, h1, h2, hat]
  · intro ha hval hdef
    have hnot2 : (!strTruthy sub.answer_text && !sub.accepted_default) = false := by
      rcases hval with h | h <;> simp [h]
    have hnot3 : (sub.accepted_default && !strTruthy c.default_answer) = false := by
      by_cases hacc : sub.accepted_default = true
      · simp [hacc, hdef hacc]
      · simp only [Bool.not_eq_true] at hacc
        simp [hacc]
    refine ⟨?_, ?_, rfl, rfl, rfl, rfl⟩
    · simp [submit_clarification, submitUpdate, hfind, ha, hnot2, hnot3]
    · show (sub.answer_text.isSome || sub.accepted_default) = true
      rcases hval with h | h
      · cases hat : sub.answer_text with
        | none => simp [strTruthy, hat] at h
        | some s => simp
      · simp [h]


/-- Witness for C10: answering `pendingClar` with text "PostgreSQL"
succeeds and records the answer fields. -/
theorem submit_clarification_correct_witness :
    (submit_clarification [pendingClar] 3
        { answer_text := some "PostgreSQL", accepted_default := false,
          answered_by := some "alice" } 900).1 =
      Except.ok { pendingClar with
        answer_text := some "PostgreSQL", accepted_default := false,
        answered_at := some 900, answered_by := some "alice" } := by
  have h := (submit_clarification_correct [pendingClar] 3
    { answer_text := some "PostgreSQL", accepted_default := false,
      answered_by := some "alice" } 900 pendingClar (by decide)).2.2.2
    rfl (Or.inl (by decide)) (fun hc => by cases hc)
  exact congrArg Prod.fst h.1

end Workbench
